import Mathlib

/-!
Shallow embedding of the connection & polling session manager of
`src/fft-analysis/app/(tabs)/index.tsx` (the `App` React component).

The component state is the tuple of `useState` hooks; each network
operation (`testConnection`, `startAnalysis`, `stopAnalysis`,
`fetchFFTData`) is split into the synchronous part (state update plus the
HTTP request it issues) and the asynchronous response handler (the
`.then` / `.catch` / `.finally` callbacks, modelled as one pure function
from the delivered result to the new state and the emitted alerts/logs).
The polling `useEffect` with dependencies `[isConnected, isAnalysisRunning]`
is modelled by an effect-reconciliation function applied after every state
change, exactly mirroring React semantics: the effect re-runs (cleanup,
then body) only when one of its two dependencies changed.
-/

namespace FFTApp

/-- Interface `PeakData` of index.tsx: one peak of the FFT result. -/
structure PeakData where
  frequency : Rat
  magnitude : Rat
deriving DecidableEq, Repr

/-- Interface `FFTData` of index.tsx: one measurement snapshot as returned
by `/api/fft/data`. -/
structure FFTData where
  timestamp : Rat
  peak_data : List PeakData
  max_voltage : Rat
  total_power : Rat
  is_running : Bool
deriving DecidableEq, Repr

/-- The `useState` hooks of `App`, in source order, with the source's
initial values (see `initState`). -/
structure AppState where
  showWelcome : Bool
  ipAddress : String
  port : String
  isConnected : Bool
  isAnalysisRunning : Bool
  fftData : Option FFTData
  loading : Bool
deriving DecidableEq, Repr

/-- Initial values of the `useState` hooks. -/
def initState : AppState :=
  { showWelcome := true
    ipAddress := "10.141.192.169"
    port := "5000"
    isConnected := false
    isAnalysisRunning := false
    fftData := none
    loading := false }

/-- The four request kinds the component issues. -/
inductive ReqKind where
  | status
  | fftStart
  | fftStop
  | fftData
deriving DecidableEq, Repr

/-- An outbound HTTP request: its kind and the URL string the code builds. -/
structure Request where
  kind : ReqKind
  url : String
deriving DecidableEq, Repr

/-- URL construction, mirroring the template literals of the source:
"http://", then ipAddress, then ":", then port, then the path. -/
def apiUrl (s : AppState) (path : String) : String :=
  "http://" ++ s.ipAddress ++ ":" ++ s.port ++ path

/-- An `Alert.alert` call: title and message. -/
structure UIAlert where
  title : String
  message : String
deriving DecidableEq, Repr

/-- Outcome of one `fetch(...).then(r => r.json())` chain: either the decoded
JSON payload, or any failure (network error or undecodable body), which the
source routes to its `.catch` handler. -/
inductive FetchResult (α : Type) where
  | ok (data : α)
  | err
deriving DecidableEq, Repr

/-- Decoded body of `/api/status`. -/
structure StatusData where
  version : String
  analysis_running : Bool
deriving DecidableEq, Repr

/-- Decoded body of `/api/fft/start` and `/api/fft/stop`. -/
structure SuccessData where
  success : Bool
deriving DecidableEq, Repr

/-- Synchronous part of `testConnection` (lines 28-31): set `loading` and
issue the GET to `/api/status`. No validation of host or port happens. -/
def testConnection (s : AppState) : AppState × List Request :=
  ({ s with loading := true }, [⟨ReqKind.status, apiUrl s "/api/status"⟩])

/-- The `.then` / `.catch` / `.finally` callbacks of `testConnection`
(lines 31-51). -/
def handleStatusResponse (s : AppState) : FetchResult StatusData → AppState × List UIAlert
  | .ok d =>
      ({ s with isConnected := true, isAnalysisRunning := d.analysis_running,
                loading := false },
       [⟨"Connection Successful!",
         "Connected to server version " ++ d.version ++ "."⟩])
  | .err =>
      ({ s with isConnected := false, loading := false },
       [⟨"Connection Failed",
         "Error connecting to server. Please check the IP address and port."⟩])

/-- Synchronous part of `startAnalysis` (lines 55-62): set `loading` and
issue the POST to `/api/fft/start`. There is no guard on
`isAnalysisRunning`. -/
def startAnalysis (s : AppState) : AppState × List Request :=
  ({ s with loading := true }, [⟨ReqKind.fftStart, apiUrl s "/api/fft/start"⟩])

/-- `fetchFFTData` (lines 106-107): issue the GET to `/api/fft/data`;
no synchronous state change. -/
def fetchFFTData (s : AppState) : AppState × List Request :=
  (s, [⟨ReqKind.fftData, apiUrl s "/api/fft/data"⟩])

/-- The `.then` / `.catch` / `.finally` callbacks of `startAnalysis`
(lines 63-77): on `success` set `isAnalysisRunning` and call
`fetchFFTData()` (which issues one data request); otherwise alert. -/
def handleStartResponse (s : AppState) :
    FetchResult SuccessData → AppState × List Request × List UIAlert
  | .ok d =>
      if d.success then
        ({ s with isAnalysisRunning := true, loading := false },
         (fetchFFTData s).2, [])
      else
        ({ s with loading := false }, [], [⟨"Error", "Failed to start analysis"⟩])
  | .err =>
      ({ s with loading := false }, [], [⟨"Error", "Network error"⟩])

/-- Synchronous part of `stopAnalysis` (lines 81-88): set `loading` and
issue the POST to `/api/fft/stop`. No guard on `isAnalysisRunning`. -/
def stopAnalysis (s : AppState) : AppState × List Request :=
  ({ s with loading := true }, [⟨ReqKind.fftStop, apiUrl s "/api/fft/stop"⟩])

/-- The `.then` / `.catch` / `.finally` callbacks of `stopAnalysis`
(lines 89-102). -/
def handleStopResponse (s : AppState) :
    FetchResult SuccessData → AppState × List UIAlert
  | .ok d =>
      if d.success then
        ({ s with isAnalysisRunning := false, loading := false }, [])
      else
        ({ s with loading := false }, [⟨"Error", "Failed to stop analysis"⟩])
  | .err =>
      ({ s with loading := false }, [⟨"Error", "Network error"⟩])

/-- The `.then` / `.catch` callbacks of `fetchFFTData` (lines 108-115):
a decoded response unconditionally replaces `fftData` and overwrites
`isAnalysisRunning` with the reported `is_running`; a failure only logs
"Error fetching FFT data" and changes nothing. -/
def handleDataResponse (s : AppState) :
    FetchResult FFTData → AppState × List String
  | .ok d =>
      ({ s with fftData := some d, isAnalysisRunning := d.is_running }, [])
  | .err => (s, ["Error fetching FFT data"])

/-- The Disconnect button's `onPress` (line 156): only
`setIsConnected(false)`; `isAnalysisRunning` and `fftData` are not
touched. -/
def disconnectPress (s : AppState) : AppState :=
  { s with isConnected := false }

/-- The analysis button (lines 163-175): `disabled` while `loading`;
`onPress` dispatches to `stopAnalysis` when `isAnalysisRunning`, else
`startAnalysis`. -/
def analysisButtonPress (s : AppState) : AppState × List Request :=
  if s.loading then (s, [])
  else if s.isAnalysisRunning then stopAnalysis s
  else startAnalysis s

/-- The interval passed to `setInterval` on line 124. -/
def pollIntervalMs : Nat := 1000

/-- Whole-system state: the component state, the live interval timer of the
polling `useEffect` (`some` interval when `setInterval` is active, `none`
after `clearInterval` / before any `setInterval`), and the number of
in-flight requests of each kind (issued fetches whose callbacks have not
yet run; fetches are never cancelled, so these survive disconnects). -/
structure SysState where
  app : AppState
  timer : Option Nat
  pendingStatus : Nat
  pendingStart : Nat
  pendingStop : Nat
  pendingData : Nat
deriving DecidableEq, Repr

/-- Initial system state: initial hooks, no timer (the effect's first run
sees `isConnected && isAnalysisRunning` false), nothing in flight. -/
def initSys : SysState :=
  { app := initState, timer := none,
    pendingStatus := 0, pendingStart := 0, pendingStop := 0, pendingData := 0 }

/-- Record one issued request as in flight. -/
def issueOne (st : SysState) (r : Request) : SysState :=
  match r.kind with
  | .status => { st with pendingStatus := st.pendingStatus + 1 }
  | .fftStart => { st with pendingStart := st.pendingStart + 1 }
  | .fftStop => { st with pendingStop := st.pendingStop + 1 }
  | .fftData => { st with pendingData := st.pendingData + 1 }

/-- Record a list of issued requests as in flight. -/
def issue (st : SysState) : List Request → SysState
  | [] => st
  | r :: rs => issue (issueOne st r) rs

/-- The dependency array `[isConnected, isAnalysisRunning]` of the polling
`useEffect` (line 130). -/
def effectDeps (a : AppState) : Bool × Bool :=
  (a.isConnected, a.isAnalysisRunning)

/-- React reconciliation of the polling `useEffect` (lines 119-130) after a
state change from `old` to `st.app`: if the dependencies are unchanged the
effect does not re-run; otherwise the cleanup clears the interval and the
effect body, when `isConnected && isAnalysisRunning`, calls `fetchFFTData()`
immediately and starts a 1000 ms interval. -/
def applyEffect (old : AppState) (st : SysState) : SysState × List Request :=
  if effectDeps old = effectDeps st.app then (st, [])
  else if st.app.isConnected && st.app.isAnalysisRunning then
    ({ st with timer := some pollIntervalMs }, (fetchFFTData st.app).2)
  else
    ({ st with timer := none }, [])

/-- Finish one event: reconcile the effect against the pre-event component
state `old`, and record every request issued in this event (handler
requests `reqs` plus the effect's immediate fetch) as in flight. Returns
the new system state and all requests issued by the event. -/
def finish (old : AppState) (st : SysState) (reqs : List Request) :
    SysState × List Request :=
  let p := applyEffect old st
  (issue p.1 (reqs ++ p.2), reqs ++ p.2)

/-- The external events the component reacts to: the four user gestures the
rendered screens offer, delivery of a response to an in-flight request of
each kind, and one firing of the `setInterval` timer. -/
inductive Event where
  | pressWelcome
  | pressConnect
  | pressDisconnect
  | pressAnalysis
  | respStatus (r : FetchResult StatusData)
  | respStart (r : FetchResult SuccessData)
  | respStop (r : FetchResult SuccessData)
  | respData (r : FetchResult FFTData)
  | tick
deriving DecidableEq, Repr

/-- One event step. User gestures are gated by what the source renders: the
welcome screen swallows everything but its tap; the Connect button exists
only on the connection screen (not connected) and is `disabled` while
`loading`; Disconnect and the analysis button exist only while connected.
A response event is delivered only when a request of its kind is in flight.
A `tick` fires `fetchFFTData` only while the interval timer is live. -/
def step (st : SysState) : Event → SysState × List Request
  | .pressWelcome =>
      if st.app.showWelcome then
        finish st.app { st with app := { st.app with showWelcome := false } } []
      else (st, [])
  | .pressConnect =>
      if st.app.showWelcome || st.app.isConnected || st.app.loading then (st, [])
      else
        let p := testConnection st.app
        finish st.app { st with app := p.1 } p.2
  | .pressDisconnect =>
      if st.app.showWelcome || !st.app.isConnected then (st, [])
      else finish st.app { st with app := disconnectPress st.app } []
  | .pressAnalysis =>
      if st.app.showWelcome || !st.app.isConnected then (st, [])
      else
        let p := analysisButtonPress st.app
        finish st.app { st with app := p.1 } p.2
  | .respStatus r =>
      if st.pendingStatus = 0 then (st, [])
      else
        let p := handleStatusResponse st.app r
        finish st.app
          { st with app := p.1, pendingStatus := st.pendingStatus - 1 } []
  | .respStart r =>
      if st.pendingStart = 0 then (st, [])
      else
        let p := handleStartResponse st.app r
        finish st.app
          { st with app := p.1, pendingStart := st.pendingStart - 1 } p.2.1
  | .respStop r =>
      if st.pendingStop = 0 then (st, [])
      else
        let p := handleStopResponse st.app r
        finish st.app
          { st with app := p.1, pendingStop := st.pendingStop - 1 } []
  | .respData r =>
      if st.pendingData = 0 then (st, [])
      else
        let p := handleDataResponse st.app r
        finish st.app
          { st with app := p.1, pendingData := st.pendingData - 1 } []
  | .tick =>
      match st.timer with
      | some _ =>
          let p := fetchFFTData st.app
          finish st.app { st with app := p.1 } p.2
      | none => (st, [])

/-- The state after an event, forgetting the issued requests. -/
def stepState (st : SysState) (e : Event) : SysState := (step st e).1

/-- Run a list of events from a state. -/
def runEvents (st : SysState) : List Event → SysState
  | [] => st
  | e :: es => runEvents (stepState st e) es

/-- States reachable from the mounted component. -/
inductive Reachable : SysState → Prop
  | init : Reachable initSys
  | next {st : SysState} (h : Reachable st) (e : Event) : Reachable (stepState st e)

/-- The timer value the polling effect maintains for a given component
state: live with the 1000 ms interval exactly while
`isConnected && isAnalysisRunning`. -/
def timerFor (a : AppState) : Option Nat :=
  if a.isConnected && a.isAnalysisRunning then some pollIntervalMs else none

/-- The scheduler invariant: the interval timer is live exactly while the
component is connected with analysis running. -/
def timerOK (st : SysState) : Prop := st.timer = timerFor st.app

lemma issueOne_app (st : SysState) (r : Request) : (issueOne st r).app = st.app := by
  rcases r with ⟨k, u⟩
  cases k <;> rfl

lemma issueOne_timer (st : SysState) (r : Request) :
    (issueOne st r).timer = st.timer := by
  rcases r with ⟨k, u⟩
  cases k <;> rfl

lemma issue_app (rs : List Request) (st : SysState) : (issue st rs).app = st.app := by
  induction rs generalizing st with
  | nil => rfl
  | cons r rs ih => rw [issue, ih, issueOne_app]

lemma issue_timer (rs : List Request) (st : SysState) :
    (issue st rs).timer = st.timer := by
  induction rs generalizing st with
  | nil => rfl
  | cons r rs ih => rw [issue, ih, issueOne_timer]

lemma applyEffect_app (old : AppState) (st : SysState) :
    (applyEffect old st).1.app = st.app := by
  unfold applyEffect
  split
  · rfl
  · split <;> rfl

lemma finish_app (old : AppState) (st : SysState) (reqs : List Request) :
    (finish old st reqs).1.app = st.app := by
  unfold finish
  rw [issue_app, applyEffect_app]

lemma timerFor_congr {a b : AppState} (h : effectDeps a = effectDeps b) :
    timerFor a = timerFor b := by
  unfold effectDeps at h
  unfold timerFor
  rw [(Prod.mk.injEq _ _ _ _).mp h |>.1, (Prod.mk.injEq _ _ _ _).mp h |>.2]

lemma applyEffect_timer (old : AppState) (st : SysState)
    (h : st.timer = timerFor old) :
    (applyEffect old st).1.timer = timerFor st.app := by
  unfold applyEffect
  split
  · rename_i hdeps
    rw [h, timerFor_congr hdeps]
  · split
    · rename_i hcond
      unfold timerFor
      rw [if_pos hcond]
    · rename_i hcond
      unfold timerFor
      rw [if_neg hcond]

lemma finish_timer (old : AppState) (st : SysState) (reqs : List Request)
    (h : st.timer = timerFor old) :
    (finish old st reqs).1.timer = timerFor st.app := by
  unfold finish
  rw [issue_timer, applyEffect_timer old st h]

/-- Every event either leaves the system untouched (and emits nothing) or
goes through `finish` applied to the pre-event component state, with an
intermediate system state whose timer is still the pre-event timer. -/
lemma step_shape (st : SysState) (e : Event) :
    step st e = (st, []) ∨
    ∃ st2 reqs, step st e = finish st.app st2 reqs ∧ st2.timer = st.timer := by
  cases e with
  | pressWelcome =>
      rw [step]; split
      · exact Or.inr ⟨_, _, rfl, rfl⟩
      · exact Or.inl rfl
  | pressConnect =>
      rw [step]; split
      · exact Or.inl rfl
      · exact Or.inr ⟨_, _, rfl, rfl⟩
  | pressDisconnect =>
      rw [step]; split
      · exact Or.inl rfl
      · exact Or.inr ⟨_, _, rfl, rfl⟩
  | pressAnalysis =>
      rw [step]; split
      · exact Or.inl rfl
      · exact Or.inr ⟨_, _, rfl, rfl⟩
  | respStatus r =>
      rw [step]; split
      · exact Or.inl rfl
      · exact Or.inr ⟨_, _, rfl, rfl⟩
  | respStart r =>
      rw [step]; split
      · exact Or.inl rfl
      · exact Or.inr ⟨_, _, rfl, rfl⟩
  | respStop r =>
      rw [step]; split
      · exact Or.inl rfl
      · exact Or.inr ⟨_, _, rfl, rfl⟩
  | respData r =>
      rw [step]; split
      · exact Or.inl rfl
      · exact Or.inr ⟨_, _, rfl, rfl⟩
  | tick =>
      rw [step]
      cases h : st.timer with
      | none => exact Or.inl rfl
      | some n => exact Or.inr ⟨_, _, rfl, rfl⟩

lemma timerOK_step {st : SysState} (h : timerOK st) (e : Event) :
    timerOK (stepState st e) := by
  rcases step_shape st e with hs | ⟨st2, reqs, hs, ht⟩
  · unfold stepState
    rw [hs]
    exact h
  · unfold stepState
    rw [hs]
    unfold timerOK
    rw [finish_app]
    exact finish_timer _ _ _ (ht.trans h)

lemma reachable_timerOK {st : SysState} (h : Reachable st) : timerOK st := by
  induction h with
  | init => rfl
  | next h e ih => exact timerOK_step ih e

lemma applyEffect_same (old : AppState) (st : SysState)
    (h : effectDeps old = effectDeps st.app) :
    applyEffect old st = (st, []) := by
  unfold applyEffect
  rw [if_pos h]

lemma applyEffect_off (old : AppState) (st : SysState)
    (hd : effectDeps old ≠ effectDeps st.app)
    (hc : (st.app.isConnected && st.app.isAnalysisRunning) = false) :
    applyEffect old st = ({ st with timer := none }, []) := by
  unfold applyEffect
  rw [if_neg hd, if_neg (by simp [hc])]

lemma applyEffect_on (old : AppState) (st : SysState)
    (hd : effectDeps old ≠ effectDeps st.app)
    (hc : (st.app.isConnected && st.app.isAnalysisRunning) = true) :
    applyEffect old st
      = ({ st with timer := some pollIntervalMs },
         [⟨ReqKind.fftData, apiUrl st.app "/api/fft/data"⟩]) := by
  unfold applyEffect
  rw [if_neg hd, if_pos hc]
  rfl

lemma finish_same (old : AppState) (st : SysState) (reqs : List Request)
    (h : effectDeps old = effectDeps st.app) :
    finish old st reqs = (issue st reqs, reqs) := by
  unfold finish
  rw [applyEffect_same old st h]
  simp

lemma finish_off (old : AppState) (st : SysState) (reqs : List Request)
    (hd : effectDeps old ≠ effectDeps st.app)
    (hc : (st.app.isConnected && st.app.isAnalysisRunning) = false) :
    finish old st reqs = (issue { st with timer := none } reqs, reqs) := by
  unfold finish
  rw [applyEffect_off old st hd hc]
  simp

lemma finish_on (old : AppState) (st : SysState) (reqs : List Request)
    (hd : effectDeps old ≠ effectDeps st.app)
    (hc : (st.app.isConnected && st.app.isAnalysisRunning) = true) :
    finish old st reqs
      = (issue { st with timer := some pollIntervalMs }
           (reqs ++ [⟨ReqKind.fftData, apiUrl st.app "/api/fft/data"⟩]),
         reqs ++ [⟨ReqKind.fftData, apiUrl st.app "/api/fft/data"⟩]) := by
  unfold finish
  rw [applyEffect_on old st hd hc]

lemma step_pressDisconnect (st : SysState)
    (hw : st.app.showWelcome = false) (hc : st.app.isConnected = true) :
    step st Event.pressDisconnect
      = finish st.app { st with app := disconnectPress st.app } [] := by
  simp only [step, hw, hc]
  rfl

lemma step_pressConnect (st : SysState) (hw : st.app.showWelcome = false)
    (hc : st.app.isConnected = false) (hl : st.app.loading = false) :
    step st Event.pressConnect
      = finish st.app { st with app := (testConnection st.app).1 }
          (testConnection st.app).2 := by
  simp only [step, hw, hc, hl]
  rfl

lemma step_pressAnalysis (st : SysState)
    (hw : st.app.showWelcome = false) (hc : st.app.isConnected = true) :
    step st Event.pressAnalysis
      = finish st.app { st with app := (analysisButtonPress st.app).1 }
          (analysisButtonPress st.app).2 := by
  simp only [step, hw, hc]
  rfl

lemma step_respStatus (st : SysState) (r : FetchResult StatusData)
    (hp : st.pendingStatus ≠ 0) :
    step st (Event.respStatus r)
      = finish st.app
          { st with app := (handleStatusResponse st.app r).1,
                    pendingStatus := st.pendingStatus - 1 } [] := by
  simp only [step, hp]
  rfl

lemma step_respStart (st : SysState) (r : FetchResult SuccessData)
    (hp : st.pendingStart ≠ 0) :
    step st (Event.respStart r)
      = finish st.app
          { st with app := (handleStartResponse st.app r).1,
                    pendingStart := st.pendingStart - 1 }
          (handleStartResponse st.app r).2.1 := by
  simp only [step, hp]
  rfl

lemma step_respStop (st : SysState) (r : FetchResult SuccessData)
    (hp : st.pendingStop ≠ 0) :
    step st (Event.respStop r)
      = finish st.app
          { st with app := (handleStopResponse st.app r).1,
                    pendingStop := st.pendingStop - 1 } [] := by
  simp only [step, hp]
  rfl

lemma step_respData (st : SysState) (r : FetchResult FFTData)
    (hp : st.pendingData ≠ 0) :
    step st (Event.respData r)
      = finish st.app
          { st with app := (handleDataResponse st.app r).1,
                    pendingData := st.pendingData - 1 } [] := by
  simp only [step, hp]
  rfl

lemma step_tick_some (st : SysState) (n : Nat) (h : st.timer = some n) :
    step st Event.tick = finish st.app st (fetchFFTData st.app).2 := by
  simp only [step, h]
  rw [← h]
  rfl

lemma step_tick_none (st : SysState) (h : st.timer = none) :
    step st Event.tick = (st, []) := by
  simp only [step, h]

/-- A concrete measurement snapshot used in concrete executions. -/
def sampleData : FFTData :=
  { timestamp := 100, peak_data := [⟨50, 2⟩], max_voltage := 3,
    total_power := 7, is_running := true }

/-- Concrete execution: dismiss the welcome screen, press Connect, receive a
status response reporting analysis running, then press Disconnect. The
status success activates the polling effect, whose immediate
`fetchFFTData()` leaves one data request in flight across the disconnect. -/
def disconnectTrace : List Event :=
  [Event.pressWelcome, Event.pressConnect,
   Event.respStatus (FetchResult.ok ⟨"1.0", true⟩), Event.pressDisconnect]

/-- Concrete execution: as `disconnectTrace`, but the in-flight poll
response is delivered after the disconnect. -/
def stalePollTrace : List Event :=
  disconnectTrace ++ [Event.respData (FetchResult.ok sampleData)]

/-- Concrete execution reaching a state that is connected, running, and
holds a snapshot: the in-flight poll response arrives before the user
presses Disconnect. -/
def connectedRunningTrace : List Event :=
  [Event.pressWelcome, Event.pressConnect,
   Event.respStatus (FetchResult.ok ⟨"1.0", true⟩),
   Event.respData (FetchResult.ok sampleData)]

/-- A concrete component state: connected, analysis not running. -/
def connectedIdle : AppState :=
  { showWelcome := false, ipAddress := "10.141.192.169", port := "5000",
    isConnected := true, isAnalysisRunning := false, fftData := none,
    loading := false }

/-- A concrete component state: connected, analysis running. -/
def connectedRunning : AppState :=
  { connectedIdle with isAnalysisRunning := true }

/-- C1, counterexample. Run the component to a state that is connected,
running, and holds a snapshot, then press Disconnect: `isConnected`
becomes false, but `isAnalysisRunning` is still true (not Idle) and
`fftData` still holds the snapshot (not None), refuting the claim that
disconnect always yields acquisitionStatus = Idle and latestSnapshot =
None. -/
theorem C1_cex_disconnect_keeps_acquisition_and_snapshot :
    (runEvents initSys (connectedRunningTrace ++ [Event.pressDisconnect])).app.isConnected
      = false ∧
    (runEvents initSys (connectedRunningTrace ++ [Event.pressDisconnect])).app.isAnalysisRunning
      = true ∧
    (runEvents initSys (connectedRunningTrace ++ [Event.pressDisconnect])).app.fftData
      = some sampleData := by
  refine ⟨rfl, rfl, rfl⟩

/-- C1, amended. Pressing Disconnect from any connected state sets
`isConnected` to false and the effect cleanup clears the polling interval,
but `isAnalysisRunning` and `fftData` are left exactly as they were: the
disconnect handler is only `setIsConnected(false)`. -/
theorem C1_disconnect_sets_disconnected_only (st : SysState)
    (hw : st.app.showWelcome = false) (hc : st.app.isConnected = true) :
    (stepState st Event.pressDisconnect).app.isConnected = false ∧
    (stepState st Event.pressDisconnect).timer = none ∧
    (stepState st Event.pressDisconnect).app.isAnalysisRunning
      = st.app.isAnalysisRunning ∧
    (stepState st Event.pressDisconnect).app.fftData = st.app.fftData := by
  have hs := step_pressDisconnect st hw hc
  have hoff := finish_off st.app { st with app := disconnectPress st.app } []
    (by simp [effectDeps, disconnectPress, hc]) (by simp [disconnectPress])
  unfold stepState
  rw [hs, hoff]
  refine ⟨?_, ?_, ?_, ?_⟩
  · rw [issue_app]; rfl
  · rw [issue_timer]
  · rw [issue_app]; rfl
  · rw [issue_app]; rfl

/-- C1, witness for the amended theorem at a concrete connected state. -/
theorem C1_witness :
    (stepState ⟨connectedRunning, some 1000, 0, 0, 0, 0⟩ Event.pressDisconnect).app.isConnected
      = false ∧
    (stepState ⟨connectedRunning, some 1000, 0, 0, 0, 0⟩ Event.pressDisconnect).timer
      = none ∧
    (stepState ⟨connectedRunning, some 1000, 0, 0, 0, 0⟩ Event.pressDisconnect).app.isAnalysisRunning
      = true ∧
    (stepState ⟨connectedRunning, some 1000, 0, 0, 0, 0⟩ Event.pressDisconnect).app.fftData
      = none := by
  have h := C1_disconnect_sets_disconnected_only
    ⟨connectedRunning, some 1000, 0, 0, 0, 0⟩ rfl rfl
  exact ⟨h.1, h.2.1, h.2.2.1, h.2.2.2⟩

/-- C2, counterexample. In `disconnectTrace` the user disconnects while one
poll request is in flight; at that point `fftData` is still `none`. When
the response is then delivered (`stalePollTrace`), it is applied anyway:
`fftData` becomes the received snapshot even though the session was
disconnected, refuting the claim that a stale poll response never mutates
`latestSnapshot`. -/
theorem C2_cex_stale_poll_mutates_snapshot :
    (runEvents initSys disconnectTrace).app.isConnected = false ∧
    (runEvents initSys disconnectTrace).pendingData = 1 ∧
    (runEvents initSys disconnectTrace).app.fftData = none ∧
    (runEvents initSys stalePollTrace).app.fftData = some sampleData := by
  refine ⟨rfl, rfl, rfl, rfl⟩

/-- C2, amended. There is no epoch-counter (or any other staleness) check:
whenever a poll response is delivered, its `.then` handler runs
unconditionally, so even with the session disconnected it overwrites
`fftData` with the received snapshot and `isAnalysisRunning` with the
reported `is_running`. -/
theorem C2_stale_poll_applied_unconditionally (st : SysState) (d : FFTData)
    (hp : 0 < st.pendingData) (_hc : st.app.isConnected = false) :
    (stepState st (Event.respData (FetchResult.ok d))).app.fftData = some d ∧
    (stepState st (Event.respData (FetchResult.ok d))).app.isAnalysisRunning
      = d.is_running := by
  have hs := step_respData st (FetchResult.ok d) (Nat.pos_iff_ne_zero.mp hp)
  unfold stepState
  rw [hs, finish_app]
  exact ⟨rfl, rfl⟩

/-- C2, witness for the amended theorem: a disconnected state with one poll
in flight receives the response and its snapshot is overwritten. -/
theorem C2_witness :
    (stepState ⟨{ connectedRunning with isConnected := false }, none, 0, 0, 0, 1⟩
        (Event.respData (FetchResult.ok sampleData))).app.fftData
      = some sampleData ∧
    (stepState ⟨{ connectedRunning with isConnected := false }, none, 0, 0, 0, 1⟩
        (Event.respData (FetchResult.ok sampleData))).app.isAnalysisRunning
      = true := by
  have h := C2_stale_poll_applied_unconditionally
    ⟨{ connectedRunning with isConnected := false }, none, 0, 0, 0, 1⟩
    sampleData (by decide) rfl
  exact ⟨h.1, h.2⟩

/-- C3, counterexample. The `startAnalysis` function has no idempotence
guard: calling it twice in a row from a connected Idle state issues two
start requests (not exactly one), calling it while analysis is already
running still issues a request (not a no-op), and likewise `stopAnalysis`
outside Running still issues a stop request. -/
theorem C3_cex_start_not_idempotent :
    ((startAnalysis connectedIdle).2
      ++ (startAnalysis (startAnalysis connectedIdle).1).2).length = 2 ∧
    (startAnalysis connectedRunning).2
      = [⟨ReqKind.fftStart, apiUrl connectedRunning "/api/fft/start"⟩] ∧
    (stopAnalysis connectedIdle).2
      = [⟨ReqKind.fftStop, apiUrl connectedIdle "/api/fft/stop"⟩] := by
  refine ⟨rfl, rfl, rfl⟩

/-- C3, amended. Each direct `startAnalysis` call unconditionally issues one
start request; deduplication exists only at the UI layer: the analysis
button is `disabled` while `loading`, so pressing it twice in a row without
an intervening response issues exactly one start request — the first press
sets `loading` and the second press is swallowed. -/
theorem C3_start_deduplicated_only_by_button (st : SysState)
    (hw : st.app.showWelcome = false) (hc : st.app.isConnected = true)
    (hl : st.app.loading = false) (hr : st.app.isAnalysisRunning = false) :
    (startAnalysis st.app).2
      = [⟨ReqKind.fftStart, apiUrl st.app "/api/fft/start"⟩] ∧
    (step st Event.pressAnalysis).2
      = [⟨ReqKind.fftStart, apiUrl st.app "/api/fft/start"⟩] ∧
    (step (stepState st Event.pressAnalysis) Event.pressAnalysis).2 = [] := by
  have hbtn : analysisButtonPress st.app = startAnalysis st.app := by
    unfold analysisButtonPress
    rw [if_neg (by simp [hl]), if_neg (by simp [hr])]
  have hs := step_pressAnalysis st hw hc
  have hsame := finish_same st.app
    { st with app := (analysisButtonPress st.app).1 } (analysisButtonPress st.app).2
    (by rw [hbtn]; simp [effectDeps, startAnalysis])
  have h1 : step st Event.pressAnalysis
      = (issue { st with app := (analysisButtonPress st.app).1 }
           (analysisButtonPress st.app).2, (analysisButtonPress st.app).2) := by
    rw [hs, hsame]
  refine ⟨rfl, ?_, ?_⟩
  · rw [h1, hbtn]
    rfl
  · have happ : (stepState st Event.pressAnalysis).app
        = { st.app with loading := true } := by
      unfold stepState
      rw [h1, issue_app, hbtn]
      rfl
    have hs2 := step_pressAnalysis (stepState st Event.pressAnalysis)
      (by rw [happ]; exact hw) (by rw [happ]; exact hc)
    have hbtn2 : analysisButtonPress (stepState st Event.pressAnalysis).app
        = ((stepState st Event.pressAnalysis).app, []) := by
      unfold analysisButtonPress
      rw [if_pos (by rw [happ])]
    have hsame2 := finish_same (stepState st Event.pressAnalysis).app
      { stepState st Event.pressAnalysis with
          app := (analysisButtonPress (stepState st Event.pressAnalysis).app).1 }
      (analysisButtonPress (stepState st Event.pressAnalysis).app).2
      (by rw [hbtn2])
    rw [hs2, hsame2, hbtn2]

/-- C3, witness for the amended theorem at a concrete connected Idle
state. -/
theorem C3_witness :
    (startAnalysis connectedIdle).2
      = [⟨ReqKind.fftStart, apiUrl connectedIdle "/api/fft/start"⟩] ∧
    (step ⟨connectedIdle, none, 0, 0, 0, 0⟩ Event.pressAnalysis).2
      = [⟨ReqKind.fftStart, apiUrl connectedIdle "/api/fft/start"⟩] ∧
    (step (stepState ⟨connectedIdle, none, 0, 0, 0, 0⟩ Event.pressAnalysis)
        Event.pressAnalysis).2 = [] := by
  exact C3_start_deduplicated_only_by_button
    ⟨connectedIdle, none, 0, 0, 0, 0⟩ rfl rfl rfl rfl

/-- C4, counterexample. A connect attempt that fails leaves the session in
exactly the state it had before the attempt: the code has no
`ConnectionFailed` status distinct from being disconnected and records no
`lastError` value anywhere — after `pressConnect` and an error response,
the whole system state equals the pre-attempt state. -/
theorem C4_cex_connect_failure_records_nothing :
    runEvents initSys
        [Event.pressWelcome, Event.pressConnect, Event.respStatus FetchResult.err]
      = runEvents initSys [Event.pressWelcome] := by
  rfl

/-- C4, amended. A failed connect sets `isConnected := false` and clears
`loading`, changing nothing else in the component state; the only failure
signal is the transient "Connection Failed" alert (no error kind is
recorded); and a subsequent connect retries independently: `testConnection`
on the resulting state issues a fresh status request to the same
endpoint. -/
theorem C4_connect_failure_alert_and_retry (s : AppState) :
    (handleStatusResponse s FetchResult.err).1
      = { s with isConnected := false, loading := false } ∧
    (handleStatusResponse s FetchResult.err).2
      = [⟨"Connection Failed",
          "Error connecting to server. Please check the IP address and port."⟩] ∧
    (testConnection (handleStatusResponse s FetchResult.err).1).2
      = [⟨ReqKind.status, apiUrl s "/api/status"⟩] := by
  refine ⟨rfl, rfl, rfl⟩

/-- C5, counterexample. No endpoint validation exists: with an empty host,
and likewise with an out-of-range port, `testConnection` still issues the
HTTP status request (to a malformed URL) instead of rejecting the endpoint
before any request. -/
theorem C5_cex_no_endpoint_validation :
    (testConnection { initState with showWelcome := false, ipAddress := "" }).2
      = [⟨ReqKind.status, "http://:5000/api/status"⟩] ∧
    (testConnection { initState with showWelcome := false, port := "70000" }).2
      = [⟨ReqKind.status, "http://10.141.192.169:70000/api/status"⟩] := by
  refine ⟨rfl, rfl⟩

/-- C5, amended. The endpoint is never validated: for every component state,
whatever its host and port strings, `testConnection` issues exactly one
status request built by direct string interpolation; there is no
InvalidEndpoint rejection path. -/
theorem C5_connect_always_issues_request (s : AppState) :
    (testConnection s).2 = [⟨ReqKind.status, apiUrl s "/api/status"⟩] ∧
    (testConnection s).1 = { s with loading := true } := by
  refine ⟨rfl, rfl⟩

lemma cond_congr {a b : AppState} (h : effectDeps a = effectDeps b) :
    (a.isConnected && a.isAnalysisRunning) = (b.isConnected && b.isAnalysisRunning) := by
  unfold effectDeps at h
  rw [(Prod.mk.injEq _ _ _ _).mp h |>.1, (Prod.mk.injEq _ _ _ _).mp h |>.2]

/-- C6, confirmed. In every reachable state: the polling interval timer is
live (with the fixed 1000 ms interval) exactly while
`isConnected && isAnalysisRunning`, so polling ceases as soon as either
leaves; while live, each timer tick issues exactly one `/api/fft/data`
fetch; while not live, a tick does nothing; and whenever an event makes
polling active, the effect issues an immediate `/api/fft/data` fetch. -/
theorem C6_polling_lifecycle (st : SysState) (h : Reachable st) :
    (st.timer = if st.app.isConnected && st.app.isAnalysisRunning
                then some pollIntervalMs else none) ∧
    pollIntervalMs = 1000 ∧
    ((st.app.isConnected && st.app.isAnalysisRunning) = true →
      (step st Event.tick).2
        = [⟨ReqKind.fftData, apiUrl st.app "/api/fft/data"⟩]) ∧
    ((st.app.isConnected && st.app.isAnalysisRunning) = false →
      step st Event.tick = (st, [])) ∧
    (∀ e, (st.app.isConnected && st.app.isAnalysisRunning) = false →
      ((stepState st e).app.isConnected
        && (stepState st e).app.isAnalysisRunning) = true →
      ⟨ReqKind.fftData, apiUrl (stepState st e).app "/api/fft/data"⟩
        ∈ (step st e).2) := by
  have hti := reachable_timerOK h
  unfold timerOK timerFor at hti
  refine ⟨hti, rfl, ?_, ?_, ?_⟩
  · intro hon
    have ht : st.timer = some pollIntervalMs := by
      rw [hti, if_pos hon]
    rw [step_tick_some st pollIntervalMs ht, finish_same st.app st _ rfl]
    rfl
  · intro hoff
    exact step_tick_none st (by rw [hti, if_neg (by simp [hoff])])
  · intro e hoff hon
    rcases step_shape st e with hs | ⟨st2, reqs, hs, ht⟩
    · unfold stepState at hon
      rw [hs] at hon
      simp only at hon
      rw [hoff] at hon
      exact absurd hon (by decide)
    · have happ : (stepState st e).app = st2.app := by
        unfold stepState
        rw [hs, finish_app]
      rw [happ] at hon ⊢
      have hd : effectDeps st.app ≠ effectDeps st2.app := by
        intro hEq
        rw [← cond_congr hEq, hoff] at hon
        exact absurd hon (by decide)
      rw [hs, finish_on st.app st2 reqs hd hon]
      simp

/-- C6, witness: the theorem applied to the initial (reachable) state, where
polling is not active and a tick does nothing. -/
theorem C6_witness :
    initSys.timer = none ∧ step initSys Event.tick = (initSys, []) := by
  have h := C6_polling_lifecycle initSys Reachable.init
  exact ⟨h.1.trans rfl, h.2.2.2.1 rfl⟩

/-- A concrete snapshot reporting that analysis has stopped. -/
def idleData : FFTData := { sampleData with is_running := false }

/-- C7, confirmed. A poll response with `is_running = false` delivered while
connected and running sets `isAnalysisRunning` to false (Idle), records the
snapshot, and the dependency change makes the effect cleanup clear the
interval timer: the response step emits no request and a subsequent tick
does nothing, so no further `/api/fft/data` request is issued. -/
theorem C7_poll_reports_stopped (st : SysState) (d : FFTData)
    (hp : 0 < st.pendingData) (hc : st.app.isConnected = true)
    (hr : st.app.isAnalysisRunning = true) (hd : d.is_running = false) :
    (stepState st (Event.respData (FetchResult.ok d))).app.isAnalysisRunning
      = false ∧
    (stepState st (Event.respData (FetchResult.ok d))).app.isConnected = true ∧
    (stepState st (Event.respData (FetchResult.ok d))).app.fftData = some d ∧
    (stepState st (Event.respData (FetchResult.ok d))).timer = none ∧
    (step st (Event.respData (FetchResult.ok d))).2 = [] ∧
    step (stepState st (Event.respData (FetchResult.ok d))) Event.tick
      = (stepState st (Event.respData (FetchResult.ok d)), []) := by
  have hs := step_respData st (FetchResult.ok d) (Nat.pos_iff_ne_zero.mp hp)
  have hcond : (((handleDataResponse st.app (FetchResult.ok d)).1).isConnected
      && ((handleDataResponse st.app (FetchResult.ok d)).1).isAnalysisRunning)
      = false := by
    show (st.app.isConnected && d.is_running) = false
    rw [hd, Bool.and_false]
  have hdeps : effectDeps st.app
      ≠ effectDeps (handleDataResponse st.app (FetchResult.ok d)).1 := by
    intro hEq
    have hcc := cond_congr hEq
    rw [hc, hr, hcond] at hcc
    exact absurd hcc (by decide)
  have hfin := finish_off st.app
    { st with app := (handleDataResponse st.app (FetchResult.ok d)).1,
              pendingData := st.pendingData - 1 } [] hdeps hcond
  have hstate : stepState st (Event.respData (FetchResult.ok d))
      = { st with app := (handleDataResponse st.app (FetchResult.ok d)).1,
                  pendingData := st.pendingData - 1, timer := none } := by
    unfold stepState
    rw [hs, hfin]
    rfl
  refine ⟨?_, ?_, ?_, ?_, ?_, ?_⟩
  · rw [hstate]
    exact hd
  · rw [hstate]
    exact hc
  · rw [hstate]
    rfl
  · rw [hstate]
  · rw [hs, hfin]
  · exact step_tick_none _ (by rw [hstate])

/-- C7, witness: a connected running state with one poll in flight receives
a snapshot with `is_running = false`. -/
theorem C7_witness :
    (stepState ⟨connectedRunning, some 1000, 0, 0, 0, 1⟩
        (Event.respData (FetchResult.ok idleData))).app.isAnalysisRunning
      = false ∧
    (stepState ⟨connectedRunning, some 1000, 0, 0, 0, 1⟩
        (Event.respData (FetchResult.ok idleData))).timer = none ∧
    step (stepState ⟨connectedRunning, some 1000, 0, 0, 0, 1⟩
        (Event.respData (FetchResult.ok idleData))) Event.tick
      = (stepState ⟨connectedRunning, some 1000, 0, 0, 0, 1⟩
          (Event.respData (FetchResult.ok idleData)), []) := by
  have h := C7_poll_reports_stopped ⟨connectedRunning, some 1000, 0, 0, 0, 1⟩
    idleData (by decide) rfl rfl rfl
  exact ⟨h.1, h.2.2.2.1, h.2.2.2.2.2⟩

/-- C8, confirmed. A failed poll is silently skipped: the component state is
completely unchanged (so `isConnected`, `isAnalysisRunning` and the
existing `fftData` are all retained), the timer is untouched, no request
and no alert is emitted — only the internal log line — and while the timer
is live the next tick still issues its `/api/fft/data` fetch. -/
theorem C8_poll_failure_silently_skipped (st : SysState)
    (hp : 0 < st.pendingData) :
    (stepState st (Event.respData FetchResult.err)).app = st.app ∧
    (stepState st (Event.respData FetchResult.err)).timer = st.timer ∧
    (step st (Event.respData FetchResult.err)).2 = [] ∧
    (handleDataResponse st.app FetchResult.err).2
      = ["Error fetching FFT data"] ∧
    (∀ n, st.timer = some n →
      (step (stepState st (Event.respData FetchResult.err)) Event.tick).2
        = [⟨ReqKind.fftData, apiUrl st.app "/api/fft/data"⟩]) := by
  have hs := step_respData st FetchResult.err (Nat.pos_iff_ne_zero.mp hp)
  have hfin := finish_same st.app
    { st with app := (handleDataResponse st.app FetchResult.err).1,
              pendingData := st.pendingData - 1 } [] rfl
  have hstate : stepState st (Event.respData FetchResult.err)
      = { st with app := st.app, pendingData := st.pendingData - 1 } := by
    unfold stepState
    rw [hs, hfin]
    rfl
  refine ⟨?_, ?_, ?_, rfl, ?_⟩
  · rw [hstate]
  · rw [hstate]
  · rw [hs, hfin]
  · intro n htm
    have htick := step_tick_some (stepState st (Event.respData FetchResult.err)) n
      (by rw [hstate]; exact htm)
    rw [htick, finish_same _ _ _ rfl, hstate]
    rfl

/-- C8, witness: a connected running state with the timer live and one poll
in flight receives a failed poll response. -/
theorem C8_witness :
    (stepState ⟨connectedRunning, some 1000, 0, 0, 0, 1⟩
        (Event.respData FetchResult.err)).app = connectedRunning ∧
    (stepState ⟨connectedRunning, some 1000, 0, 0, 0, 1⟩
        (Event.respData FetchResult.err)).timer = some 1000 ∧
    (step (stepState ⟨connectedRunning, some 1000, 0, 0, 0, 1⟩
        (Event.respData FetchResult.err)) Event.tick).2
      = [⟨ReqKind.fftData, apiUrl connectedRunning "/api/fft/data"⟩] := by
  have h := C8_poll_failure_silently_skipped
    ⟨connectedRunning, some 1000, 0, 0, 0, 1⟩ (by decide)
  exact ⟨h.1, h.2.1, h.2.2.2.2 1000 rfl⟩

/-- C9, confirmed. A successful connect response sets `isConnected`, records
the server-reported acquisition state (`isAnalysisRunning` becomes exactly
the reported `analysis_running`), clears `loading`, and shows the success
alert; in particular a response reporting `analysis_running = false` ends
Connected and Idle. -/
theorem C9_connect_success_records_server_state (st : SysState)
    (v : String) (b : Bool) (hp : 0 < st.pendingStatus) :
    (stepState st (Event.respStatus (FetchResult.ok ⟨v, b⟩))).app.isConnected
      = true ∧
    (stepState st (Event.respStatus (FetchResult.ok ⟨v, b⟩))).app.isAnalysisRunning
      = b ∧
    (stepState st (Event.respStatus (FetchResult.ok ⟨v, b⟩))).app.loading
      = false ∧
    (handleStatusResponse st.app (FetchResult.ok ⟨v, b⟩)).2
      = [⟨"Connection Successful!",
          "Connected to server version " ++ v ++ "."⟩] := by
  have hs := step_respStatus st (FetchResult.ok ⟨v, b⟩)
    (Nat.pos_iff_ne_zero.mp hp)
  have happ : (stepState st (Event.respStatus (FetchResult.ok ⟨v, b⟩))).app
      = { st.app with isConnected := true, isAnalysisRunning := b,
                      loading := false } := by
    unfold stepState
    rw [hs, finish_app]
    rfl
  refine ⟨by rw [happ], by rw [happ], by rw [happ], rfl⟩

/-- C9, witness: the scenario of the claim — a fresh disconnected state with
one status request in flight receives a version 1.0 response reporting
analysis not running, and ends Connected and Idle. -/
theorem C9_witness :
    (stepState ⟨{ initState with showWelcome := false }, none, 1, 0, 0, 0⟩
        (Event.respStatus (FetchResult.ok ⟨"1.0", false⟩))).app.isConnected
      = true ∧
    (stepState ⟨{ initState with showWelcome := false }, none, 1, 0, 0, 0⟩
        (Event.respStatus (FetchResult.ok ⟨"1.0", false⟩))).app.isAnalysisRunning
      = false := by
  have h := C9_connect_success_records_server_state
    ⟨{ initState with showWelcome := false }, none, 1, 0, 0, 0⟩
    "1.0" false (by decide)
  exact ⟨h.1, h.2.1⟩

/-- C10, confirmed. After every successful poll, `isAnalysisRunning` equals
the `is_running` field of the snapshot just received (whatever Boolean it
is, so a poll can switch acquisition on as well as off), the snapshot fully
replaces `fftData`, and no log is emitted. -/
theorem C10_poll_success_mirrors_is_running (s : AppState) (d : FFTData) :
    (handleDataResponse s (FetchResult.ok d)).1.isAnalysisRunning
      = d.is_running ∧
    (handleDataResponse s (FetchResult.ok d)).1.fftData = some d ∧
    (handleDataResponse s (FetchResult.ok d)).2 = [] := by
  refine ⟨rfl, rfl, rfl⟩

end FFTApp
